import Mathlib

set_option linter.unusedVariables false

/-!
Shallow embedding of the client orchestration logic of
`src/examples/realtime_voice_assistant.vue` (Fridemn/llm-general-backend):
the WebSocket connection lifecycle (close and error handling, bounded
reconnection with linear backoff), the `updateParams` parameter sync, the
streaming-chunk conversation handling, and the sequential audio playback
queue.  Pure state-passing versions of the component's handler functions are
defined from the source, and the event-driven behaviour is modelled as a
step function folded over a list of events.
-/

/- ### Audio playback queue -/

/-- One queued audio segment: the object pushed onto `audioQueue.value`
(`audioQueue.value.push(obj)` with fields `url` and `text`). -/
structure AudioSegment where
  url : String
  text : String
deriving Repr, DecidableEq

/-- The audio-playback state of the component.

Fields `audioQueue`, `currentAudio`, `isPlaying`, `audioProgress` and `logs`
embed the refs of the same names.  `srcHistory` is the history of values
assigned to `audioPlayer.src` by `playNextAudio` (that assignment plus the
`play()` call is where a segment begins playback), and `arrivalHistory` is the
history of segments pushed onto `audioQueue`, in arrival order.  These two
fields record the side effects of the code on the single audio element so that
ordering properties can be stated; no handler ever reads them. -/
structure PlayerState where
  audioQueue : List AudioSegment
  currentAudio : Option AudioSegment
  isPlaying : Bool
  audioProgress : Nat
  logs : List String
  srcHistory : List AudioSegment
  arrivalHistory : List AudioSegment
deriving Repr, DecidableEq

/-- `window.location.protocol + '//' + window.location.hostname + ':8000' + url`,
the resolution of a relative audio url used by `handleTTSSentenceComplete` and
`playAudioResponse`. -/
def resolveAudioUrl (protocol hostname url : String) : String :=
  protocol ++ "//" ++ hostname ++ ":8000" ++ url

/-- `playNextAudio`: if the queue is non-empty and nothing is playing, mark the
head as playing (`isPlaying := true`, `currentAudio := audioQueue[0]`,
`audioProgress := 0`) and start it (`audioPlayer.src := currentAudio.url;
audioPlayer.play()`, recorded in `srcHistory`); otherwise do nothing. -/
def playNextAudio (s : PlayerState) : PlayerState :=
  match s.audioQueue, s.isPlaying with
  | seg :: _, false =>
      { s with isPlaying := true, currentAudio := some seg, audioProgress := 0,
               srcHistory := s.srcHistory ++ [seg] }
  | _, _ => s

/-- `handleTTSSentenceComplete(message)`: if `message.audio_url` is truthy
(present and non-empty), resolve it to a full url, log, push `(url, text)` onto
the queue, and if nothing is playing call `playNextAudio`.  Otherwise nothing
happens. -/
def handleTTSSentenceComplete (protocol hostname : String) (audio_url : Option String)
    (text : String) (s : PlayerState) : PlayerState :=
  match audio_url with
  | none => s
  | some u =>
      if u != "" then
        let seg : AudioSegment := ⟨resolveAudioUrl protocol hostname u, text⟩
        let s1 : PlayerState :=
          { s with logs := s.logs ++ ["收到TTS音频: " ++ text.take 20 ++ "..."],
                   audioQueue := s.audioQueue ++ [seg],
                   arrivalHistory := s.arrivalHistory ++ [seg] }
        if s1.isPlaying = false then playNextAudio s1 else s1
      else s

/-- `playAudioResponse(url)`: resolve the url, push a segment with text
`'语音回复'`, and if `currentAudio` is null call `playNextAudio`. -/
def playAudioResponse (protocol hostname url : String) (s : PlayerState) : PlayerState :=
  let seg : AudioSegment := ⟨resolveAudioUrl protocol hostname url, "语音回复"⟩
  let s1 : PlayerState :=
    { s with audioQueue := s.audioQueue ++ [seg],
             arrivalHistory := s.arrivalHistory ++ [seg] }
  if s1.currentAudio.isNone then playNextAudio s1 else s1

/-- `handleLLMResponse(message)`: if `message.audio_url` is truthy, hand it to
`playAudioResponse`. -/
def handleLLMResponse (protocol hostname : String) (audio_url : Option String)
    (s : PlayerState) : PlayerState :=
  match audio_url with
  | none => s
  | some u => if u != "" then playAudioResponse protocol hostname u s else s

/-- `onAudioEnded`: log, `audioQueue.shift()`, clear `currentAudio` and
`isPlaying`, then `playNextAudio()`. -/
def onAudioEnded (s : PlayerState) : PlayerState :=
  playNextAudio
    { s with logs := s.logs ++ ["音频播放完成"],
             audioQueue := s.audioQueue.tail,
             currentAudio := none, isPlaying := false }

/-- `onAudioError(error)`: log the error message (`error.message || '未知错误'`),
`audioQueue.shift()`, clear `currentAudio` and `isPlaying`, then
`playNextAudio()`. -/
def onAudioError (msg : String) (s : PlayerState) : PlayerState :=
  playNextAudio
    { s with logs := s.logs ++ ["音频播放错误: " ++ (if msg == "" then "未知错误" else msg)],
             audioQueue := s.audioQueue.tail,
             currentAudio := none, isPlaying := false }

/-- The events that drive the playback state: the two enqueue paths
(`tts_sentence_complete` and `llm_response` messages) and the audio element's
`ended` and `error` events. -/
inductive PlayerEvent where
  | ttsSentenceComplete (audio_url : Option String) (text : String)
  | llmResponse (audio_url : Option String)
  | audioEnded
  | audioError (msg : String)
deriving Repr, DecidableEq

/-- Dispatch one playback event to its handler. -/
def playerStep (protocol hostname : String) (e : PlayerEvent) (s : PlayerState) : PlayerState :=
  match e with
  | .ttsSentenceComplete audio_url text => handleTTSSentenceComplete protocol hostname audio_url text s
  | .llmResponse audio_url => handleLLMResponse protocol hostname audio_url s
  | .audioEnded => onAudioEnded s
  | .audioError msg => onAudioError msg s

/-- The component's initial playback state (`audioQueue = []`,
`currentAudio = null`, `isPlaying = false`, `audioProgress = 0`). -/
def initialPlayerState : PlayerState :=
  { audioQueue := [], currentAudio := none, isPlaying := false, audioProgress := 0,
    logs := [], srcHistory := [], arrivalHistory := [] }

/-- The playback state reached from the initial state by a list of events. -/
def runPlayer (protocol hostname : String) (evs : List PlayerEvent) : PlayerState :=
  List.foldl (fun s e => playerStep protocol hostname e s) initialPlayerState evs

/-- Invariant of the playback state: when idle the queue is empty and every
arrived segment has been started; when playing, the playing segment is the
queue head and the started segments followed by the waiting remainder equal
the arrivals in order. -/
def playerInv (s : PlayerState) : Prop :=
  (s.isPlaying = false → s.currentAudio = none ∧ s.audioQueue = []) ∧
  (s.isPlaying = true → ∃ a, s.currentAudio = some a ∧ s.audioQueue.head? = some a) ∧
  s.srcHistory ++ s.audioQueue.tail = s.arrivalHistory

/- ### WebSocket connection lifecycle -/

/-- `maxReconnectAttempts` (a ref initialised to 3). -/
def maxReconnectAttempts : Nat := 3

/-- `reconnectDelay` (a ref initialised to 1000 ms). -/
def reconnectDelay : Nat := 1000

/-- The connection-related state of the component.  `scheduledReconnects` is
the history of backoff delays passed to `setTimeout(connectWebSocket, delay)`
since the last successful open (it is reset when `onopen` fires); it records
that side effect so that the reconnect schedule can be stated. -/
structure ConnState where
  heartbeatActive : Bool
  isConnected : Bool
  isVoiceChatting : Bool
  isSpeaking : Bool
  connectionStatusText : String
  connectionStatusClass : String
  reconnectCount : Nat
  logs : List String
  scheduledReconnects : List Nat
deriving Repr, DecidableEq

/-- The log line `将在 ... 秒后尝试重连(n/max)...` emitted when a reconnect is
scheduled. -/
def retryLog (delay n : Nat) : String :=
  "将在 " ++ toString (delay / 1000) ++ " 秒后尝试重连(" ++ toString n ++ "/" ++
    toString maxReconnectAttempts ++ ")..."

/-- `socket.onopen`: set connected, reset the reconnect counter to 0, update
status, log, and start the heartbeat (`startHeartbeat`).  The ghost reconnect
schedule restarts here ("since the last successful open"). -/
def handleOpen (s : ConnState) : ConnState :=
  { s with isConnected := true, reconnectCount := 0,
           connectionStatusText := "已连接", connectionStatusClass := "connected",
           logs := s.logs ++ ["WebSocket连接已建立"],
           heartbeatActive := true,
           scheduledReconnects := [] }

/-- `handleDisconnect(event)`: stop the heartbeat, clear `isConnected`,
`isVoiceChatting` and `isSpeaking`, update status, log the close code and
reason, and — only when `event.code !== 1000` and the reconnect counter is
below `maxReconnectAttempts` — increment the counter and schedule a reconnect
after `reconnectDelay * reconnectCount`. -/
def handleDisconnect (code : Nat) (reason : String) (s : ConnState) : ConnState :=
  let s1 : ConnState :=
    { s with heartbeatActive := false,
             isConnected := false, isVoiceChatting := false, isSpeaking := false,
             connectionStatusText := "未连接", connectionStatusClass := "disconnected",
             logs := s.logs ++ ["WebSocket连接已关闭 - 代码: " ++ toString code ++ ", 原因: " ++
                       (if reason == "" then "未知原因" else reason)] }
  if code ≠ 1000 ∧ s1.reconnectCount < maxReconnectAttempts then
    { s1 with reconnectCount := s1.reconnectCount + 1,
              scheduledReconnects :=
                s1.scheduledReconnects ++ [reconnectDelay * (s1.reconnectCount + 1)],
              logs := s1.logs ++
                [retryLog (reconnectDelay * (s1.reconnectCount + 1)) (s1.reconnectCount + 1)] }
  else s1

/-- `handleConnectionError(error)`: log the error, set the status to
`'连接失败'` / `'disconnected'`, and — only when the reconnect counter is below
`maxReconnectAttempts` — increment it and schedule a reconnect after
`reconnectDelay * reconnectCount`.  Note that, unlike `handleDisconnect`, this
handler does not touch the heartbeat. -/
def handleConnectionError (err : String) (s : ConnState) : ConnState :=
  let s1 : ConnState :=
    { s with logs := s.logs ++ ["连接错误: " ++ err],
             connectionStatusText := "连接失败", connectionStatusClass := "disconnected" }
  if s1.reconnectCount < maxReconnectAttempts then
    { s1 with reconnectCount := s1.reconnectCount + 1,
              scheduledReconnects :=
                s1.scheduledReconnects ++ [reconnectDelay * (s1.reconnectCount + 1)],
              logs := s1.logs ++
                [retryLog (reconnectDelay * (s1.reconnectCount + 1)) (s1.reconnectCount + 1)] }
  else s1

/-- The socket events that drive the connection state. -/
inductive ConnEvent where
  | opened
  | closed (code : Nat) (reason : String)
  | errored (msg : String)
deriving Repr, DecidableEq

/-- Dispatch one socket event to its handler (`socket.onopen`,
`socket.onclose = handleDisconnect`, `socket.onerror = handleConnectionError`). -/
def connStep (e : ConnEvent) (s : ConnState) : ConnState :=
  match e with
  | .opened => handleOpen s
  | .closed code reason => handleDisconnect code reason s
  | .errored msg => handleConnectionError msg s

/-- `disconnectWebSocket` calls `socket.close()` on the live socket, a normal
closure; the spec describes this as a normal-code close, so it is modelled as
the close event with code 1000 that it induces (the WebSocket close API itself
is outside the repository). -/
def disconnectWebSocket : ConnEvent := ConnEvent.closed 1000 ""

/-- The component's initial connection state. -/
def initialConnState : ConnState :=
  { heartbeatActive := false, isConnected := false, isVoiceChatting := false,
    isSpeaking := false, connectionStatusText := "未连接",
    connectionStatusClass := "disconnected", reconnectCount := 0,
    logs := [], scheduledReconnects := [] }

/-- The connection state reached from the initial state by a list of socket
events. -/
def runConn (evs : List ConnEvent) : ConnState :=
  List.foldl (fun s e => connStep e s) initialConnState evs

/-- Invariant of the connection state: the reconnect counter stays within the
maximum, and the reconnects scheduled since the last open are exactly attempts
1, 2, ..., counter, attempt `i + 1` with delay `reconnectDelay * (i + 1)`. -/
def connInv (s : ConnState) : Prop :=
  s.reconnectCount ≤ maxReconnectAttempts ∧
  s.scheduledReconnects = (List.range s.reconnectCount).map (fun i => reconnectDelay * (i + 1))

/- ### Parameter sync -/

/-- An outbound frame relevant to `updateParams`: the
`{command: 'set_params', model, history_id}` command. -/
inductive OutFrame where
  | setParams (model : String) (history_id : String)
deriving Repr, DecidableEq

/-- What one call to `updateParams` does: the frames it sends over the socket
and the log lines it appends. -/
structure UpdateParamsResult where
  framesSent : List OutFrame
  logsAdded : List String
deriving Repr, DecidableEq

/-- `updateParams`: if the socket is not open, log `'WebSocket未连接，无法更新参数'`
and send nothing; if no model is selected, log a warning and send nothing; if
the history id is empty, log a warning and send nothing; otherwise send the
`set_params` command and log `'已更新会话参数'`.  `socketOpen` embeds
`socket.value && socket.value.readyState === WebSocket.OPEN`. -/
def updateParams (socketOpen : Bool) (selectedModel historyId : String) : UpdateParamsResult :=
  if !socketOpen then ⟨[], ["WebSocket未连接，无法更新参数"]⟩
  else if selectedModel == "" then ⟨[], ["警告: 未选择模型"]⟩
  else if historyId == "" then ⟨[], ["警告: 未设置对话历史ID"]⟩
  else ⟨[OutFrame.setParams selectedModel historyId], ["已更新会话参数"]⟩

/- ### Conversation history and streaming chunks -/

/-- One entry of `conversationHistory.value`: `{ text, sender, className }`. -/
structure ConvEntry where
  text : String
  sender : String
  className : String
deriving Repr, DecidableEq

/-- `addMessageToConversation(text, sender, className)`: push a new entry. -/
def addMessageToConversation (text sender className : String)
    (history : List ConvEntry) : List ConvEntry :=
  history ++ [⟨text, sender, className⟩]

/-- `appendToLastMessage(text)`: find the first entry whose `className` is
`'assistant-response-building'` and concatenate `text` to its `text` (the
source mutates the entry returned by `Array.find`); if none exists, nothing
changes. -/
def appendToLastMessage (text : String) : List ConvEntry → List ConvEntry
  | [] => []
  | e :: rest =>
      if e.className == "assistant-response-building" then
        { e with text := e.text ++ text } :: rest
      else
        e :: appendToLastMessage text rest

/-- The result of `document.querySelector('.assistant-response-building')`
viewed as "an element was found".  The template renders each conversation
entry (line 69) with a class derived from `message.sender` alone
(`user-message` / `assistant-message`); the `className` field pushed by
`addMessageToConversation` is never bound into the DOM, and the class appears
nowhere else in the markup, so the query finds nothing in every state. -/
def documentHasStreamingElement : Bool := false

/-- `handleLLMStreamChunk(message)`: if
`document.querySelector('.assistant-response-building')` is null, push an
empty assistant entry carrying that `className`; then append the chunk
content via `appendToLastMessage`.  Since the query is constantly null (see
`documentHasStreamingElement`), the guard is taken on every chunk. -/
def handleLLMStreamChunk (content : String) (history : List ConvEntry) : List ConvEntry :=
  appendToLastMessage content
    (if !documentHasStreamingElement then
       addMessageToConversation "" "assistant" "assistant-response-building" history
     else history)

/- ### Helper lemmas: playback -/

theorem playNextAudio_nil (s : PlayerState) (hq : s.audioQueue = []) :
    playNextAudio s = s := by
  simp [playNextAudio, hq]

theorem playNextAudio_of_playing (s : PlayerState) (hp : s.isPlaying = true) :
    playNextAudio s = s := by
  cases hq : s.audioQueue with
  | nil => simp [playNextAudio, hq]
  | cons a t => simp [playNextAudio, hq, hp]

theorem playNextAudio_cons (s : PlayerState) (a : AudioSegment) (t : List AudioSegment)
    (hq : s.audioQueue = a :: t) (hp : s.isPlaying = false) :
    playNextAudio s =
      { s with isPlaying := true, currentAudio := some a, audioProgress := 0,
               srcHistory := s.srcHistory ++ [a] } := by
  simp [playNextAudio, hq, hp]

theorem queue_shape_of_playing (s : PlayerState) (h : playerInv s) (hp : s.isPlaying = true) :
    ∃ a t, s.currentAudio = some a ∧ s.audioQueue = a :: t := by
  obtain ⟨h1, h2, h3⟩ := h
  obtain ⟨a, hc, hh⟩ := h2 hp
  cases hqq : s.audioQueue with
  | nil => rw [hqq] at hh; simp at hh
  | cons x xs =>
      rw [hqq] at hh
      simp at hh
      exact ⟨a, xs, hc, by rw [hh]⟩

theorem playerInv_advance (s : PlayerState) (L : List String) (h : playerInv s) :
    playerInv (playNextAudio { s with logs := L, audioQueue := s.audioQueue.tail,
                                      currentAudio := none, isPlaying := false }) := by
  obtain ⟨h1, h2, h3⟩ := h
  cases hp : s.isPlaying with
  | false =>
      obtain ⟨hc, hq⟩ := h1 hp
      rw [playNextAudio_nil _ (by simp [hq])]
      refine ⟨fun _ => ⟨rfl, by simp [hq]⟩, by simp, ?_⟩
      simpa [hq] using h3
  | true =>
      obtain ⟨a, t, hc, hq⟩ := queue_shape_of_playing s ⟨h1, h2, h3⟩ hp
      cases t with
      | nil =>
          rw [playNextAudio_nil _ (by simp [hq])]
          refine ⟨fun _ => ⟨rfl, by simp [hq]⟩, by simp, ?_⟩
          simpa [hq] using h3
      | cons b t' =>
          rw [playNextAudio_cons _ b t' (by simp [hq]) (by simp)]
          refine ⟨by simp, fun _ => ⟨b, rfl, by simp [hq]⟩, ?_⟩
          show (s.srcHistory ++ [b]) ++ s.audioQueue.tail.tail = s.arrivalHistory
          rw [hq] at h3 ⊢
          simp only [List.tail_cons] at h3 ⊢
          rw [List.append_assoc]
          simpa using h3

theorem playerInv_onAudioEnded (s : PlayerState) (h : playerInv s) :
    playerInv (onAudioEnded s) := by
  unfold onAudioEnded
  exact playerInv_advance s _ h

theorem playerInv_onAudioError (msg : String) (s : PlayerState) (h : playerInv s) :
    playerInv (onAudioError msg s) := by
  unfold onAudioError
  exact playerInv_advance s _ h

theorem playerInv_enqueue (s : PlayerState) (seg : AudioSegment) (L : List String)
    (h : playerInv s) :
    playerInv (if ({ s with logs := L, audioQueue := s.audioQueue ++ [seg],
                            arrivalHistory := s.arrivalHistory ++ [seg] } :
                    PlayerState).isPlaying = false
               then playNextAudio { s with logs := L, audioQueue := s.audioQueue ++ [seg],
                                           arrivalHistory := s.arrivalHistory ++ [seg] }
               else { s with logs := L, audioQueue := s.audioQueue ++ [seg],
                             arrivalHistory := s.arrivalHistory ++ [seg] }) := by
  obtain ⟨h1, h2, h3⟩ := h
  cases hp : s.isPlaying with
  | false =>
      obtain ⟨hc, hq⟩ := h1 hp
      rw [if_pos (by simp)]
      rw [playNextAudio_cons _ seg [] (by simp [hq]) (by simp)]
      refine ⟨by simp, fun _ => ⟨seg, rfl, by simp [hq]⟩, ?_⟩
      show (s.srcHistory ++ [seg]) ++ (s.audioQueue ++ [seg]).tail = s.arrivalHistory ++ [seg]
      rw [hq]
      simp only [List.nil_append, List.tail_cons, List.append_nil]
      rw [hq] at h3
      simp only [List.tail_nil, List.append_nil] at h3
      rw [h3]
  | true =>
      rw [if_neg (by simp [hp])]
      obtain ⟨a, t, hc, hq⟩ := queue_shape_of_playing s ⟨h1, h2, h3⟩ hp
      refine ⟨by simp [hp], fun _ => ⟨a, by simpa using hc, by simp [hq]⟩, ?_⟩
      show s.srcHistory ++ (s.audioQueue ++ [seg]).tail = s.arrivalHistory ++ [seg]
      rw [hq] at h3 ⊢
      simp only [List.cons_append, List.tail_cons] at h3 ⊢
      rw [← List.append_assoc, h3]

theorem playerInv_handleTTS (protocol hostname : String) (audio_url : Option String)
    (text : String) (s : PlayerState) (h : playerInv s) :
    playerInv (handleTTSSentenceComplete protocol hostname audio_url text s) := by
  cases audio_url with
  | none => exact h
  | some u =>
      by_cases hu : u = ""
      · simpa [handleTTSSentenceComplete, hu] using h
      · simp only [handleTTSSentenceComplete, bne_iff_ne, ne_eq, hu, not_false_eq_true, if_true]
        exact playerInv_enqueue s _ _ h

theorem playerInv_enqueue_curGuard (s : PlayerState) (seg : AudioSegment)
    (h : playerInv s) :
    playerInv (if ({ s with audioQueue := s.audioQueue ++ [seg],
                            arrivalHistory := s.arrivalHistory ++ [seg] } :
                    PlayerState).currentAudio.isNone = true
               then playNextAudio { s with audioQueue := s.audioQueue ++ [seg],
                                           arrivalHistory := s.arrivalHistory ++ [seg] }
               else { s with audioQueue := s.audioQueue ++ [seg],
                             arrivalHistory := s.arrivalHistory ++ [seg] }) := by
  obtain ⟨h1, h2, h3⟩ := h
  cases hp : s.isPlaying with
  | false =>
      obtain ⟨hc, hq⟩ := h1 hp
      rw [if_pos (by simp [hc])]
      rw [playNextAudio_cons _ seg [] (by simp [hq]) (by simp)]
      refine ⟨by simp, fun _ => ⟨seg, rfl, by simp [hq]⟩, ?_⟩
      show (s.srcHistory ++ [seg]) ++ (s.audioQueue ++ [seg]).tail = s.arrivalHistory ++ [seg]
      rw [hq]
      simp only [List.nil_append, List.tail_cons, List.append_nil]
      rw [hq] at h3
      simp only [List.tail_nil, List.append_nil] at h3
      rw [h3]
  | true =>
      obtain ⟨a, t, hc, hq⟩ := queue_shape_of_playing s ⟨h1, h2, h3⟩ hp
      rw [if_neg (by simp [hc])]
      refine ⟨by simp [hp], fun _ => ⟨a, by simpa using hc, by simp [hq]⟩, ?_⟩
      show s.srcHistory ++ (s.audioQueue ++ [seg]).tail = s.arrivalHistory ++ [seg]
      rw [hq] at h3 ⊢
      simp only [List.cons_append, List.tail_cons] at h3 ⊢
      rw [← List.append_assoc, h3]

theorem playerInv_handleLLMResponse (protocol hostname : String) (audio_url : Option String)
    (s : PlayerState) (h : playerInv s) :
    playerInv (handleLLMResponse protocol hostname audio_url s) := by
  cases audio_url with
  | none => exact h
  | some u =>
      by_cases hu : u = ""
      · simpa [handleLLMResponse, hu] using h
      · simp only [handleLLMResponse, bne_iff_ne, ne_eq, hu, not_false_eq_true, if_true]
        exact playerInv_enqueue_curGuard s _ h

theorem playerInv_playerStep (protocol hostname : String) (e : PlayerEvent) (s : PlayerState)
    (h : playerInv s) : playerInv (playerStep protocol hostname e s) := by
  cases e with
  | ttsSentenceComplete u t => exact playerInv_handleTTS protocol hostname u t s h
  | llmResponse u => exact playerInv_handleLLMResponse protocol hostname u s h
  | audioEnded => exact playerInv_onAudioEnded s h
  | audioError m => exact playerInv_onAudioError m s h

theorem playerInv_runPlayer (protocol hostname : String) (evs : List PlayerEvent) :
    playerInv (runPlayer protocol hostname evs) := by
  have hgen : ∀ (l : List PlayerEvent) (s : PlayerState), playerInv s →
      playerInv (List.foldl (fun s e => playerStep protocol hostname e s) s l) := by
    intro l
    induction l with
    | nil => intro s hs; simpa using hs
    | cons e rest ih =>
        intro s hs
        simpa using ih _ (playerInv_playerStep protocol hostname e s hs)
  have hinit : playerInv initialPlayerState := by
    refine ⟨fun _ => ⟨rfl, rfl⟩, fun hcon => ?_, rfl⟩
    simp [initialPlayerState] at hcon
  exact hgen evs initialPlayerState hinit

/- ### Helper lemmas: connection -/

theorem connInv_connStep (e : ConnEvent) (s : ConnState) (h : connInv s) :
    connInv (connStep e s) := by
  obtain ⟨h1, h2⟩ := h
  cases e with
  | opened =>
      constructor
      · simp [connStep, handleOpen, maxReconnectAttempts]
      · simp [connStep, handleOpen]
  | closed code reason =>
      show connInv (handleDisconnect code reason s)
      simp only [handleDisconnect]
      split
      next hcond =>
          obtain ⟨hcode, hlt⟩ := hcond
          constructor
          · exact hlt
          · show s.scheduledReconnects ++ [reconnectDelay * (s.reconnectCount + 1)] =
              (List.range (s.reconnectCount + 1)).map (fun i => reconnectDelay * (i + 1))
            rw [h2, List.range_succ, List.map_append]
            simp
      next hcond => exact ⟨h1, h2⟩
  | errored msg =>
      show connInv (handleConnectionError msg s)
      simp only [handleConnectionError]
      split
      next hlt =>
          constructor
          · exact hlt
          · show s.scheduledReconnects ++ [reconnectDelay * (s.reconnectCount + 1)] =
              (List.range (s.reconnectCount + 1)).map (fun i => reconnectDelay * (i + 1))
            rw [h2, List.range_succ, List.map_append]
            simp
      next hlt => exact ⟨h1, h2⟩

theorem connInv_runConn (evs : List ConnEvent) : connInv (runConn evs) := by
  have hgen : ∀ (l : List ConnEvent) (s : ConnState), connInv s →
      connInv (List.foldl (fun s e => connStep e s) s l) := by
    intro l
    induction l with
    | nil => intro s hs; simpa using hs
    | cons e rest ih => intro s hs; simpa using ih _ (connInv_connStep e s hs)
  have hinit : connInv initialConnState := by
    constructor
    · simp [initialConnState, maxReconnectAttempts]
    · simp [initialConnState]
  exact hgen evs initialConnState hinit

/- ### Helper lemmas: isPlaying and currentAudio agree -/

theorem playerInv_implies_agree (s : PlayerState) (h : playerInv s) :
    (s.isPlaying = true ↔ s.currentAudio ≠ none) := by
  obtain ⟨h1, h2, h3⟩ := h
  constructor
  · intro hp
    obtain ⟨a, hc, _⟩ := h2 hp
    simp [hc]
  · intro hcur
    cases hp : s.isPlaying with
    | true => rfl
    | false =>
        obtain ⟨hc, _⟩ := h1 hp
        exact absurd hc hcur

theorem agree_playNextAudio (s : PlayerState)
    (h : s.isPlaying = true ↔ s.currentAudio ≠ none) :
    ((playNextAudio s).isPlaying = true ↔ (playNextAudio s).currentAudio ≠ none) := by
  cases hq : s.audioQueue with
  | nil => rw [playNextAudio_nil s hq]; exact h
  | cons a t =>
      cases hp : s.isPlaying with
      | true => rw [playNextAudio_of_playing s hp]; exact h
      | false => rw [playNextAudio_cons s a t hq hp]; simp

theorem agree_playerStep (protocol hostname : String) (e : PlayerEvent) (s : PlayerState)
    (h : s.isPlaying = true ↔ s.currentAudio ≠ none) :
    ((playerStep protocol hostname e s).isPlaying = true ↔
     (playerStep protocol hostname e s).currentAudio ≠ none) := by
  cases e with
  | audioEnded =>
      show ((onAudioEnded s).isPlaying = true ↔ (onAudioEnded s).currentAudio ≠ none)
      unfold onAudioEnded
      apply agree_playNextAudio
      simp
  | audioError m =>
      show ((onAudioError m s).isPlaying = true ↔ (onAudioError m s).currentAudio ≠ none)
      unfold onAudioError
      apply agree_playNextAudio
      simp
  | ttsSentenceComplete u tx =>
      show ((handleTTSSentenceComplete protocol hostname u tx s).isPlaying = true ↔
            (handleTTSSentenceComplete protocol hostname u tx s).currentAudio ≠ none)
      cases u with
      | none => exact h
      | some v =>
          by_cases hv : v = ""
          · simp only [handleTTSSentenceComplete, bne_iff_ne, ne_eq, hv]
            simpa using h
          · simp only [handleTTSSentenceComplete, bne_iff_ne, ne_eq, hv, not_false_eq_true,
              if_true]
            split
            · apply agree_playNextAudio
              simpa using h
            · simpa using h
  | llmResponse u =>
      show ((handleLLMResponse protocol hostname u s).isPlaying = true ↔
            (handleLLMResponse protocol hostname u s).currentAudio ≠ none)
      cases u with
      | none => exact h
      | some v =>
          by_cases hv : v = ""
          · simp only [handleLLMResponse, bne_iff_ne, ne_eq, hv]
            simpa using h
          · simp only [handleLLMResponse, bne_iff_ne, ne_eq, hv, not_false_eq_true, if_true,
              playAudioResponse]
            split
            · apply agree_playNextAudio
              simpa using h
            · simpa using h

theorem advance_shape (s : PlayerState) (L : List String) (a0 : AudioSegment)
    (t0 : List AudioSegment) (hq : s.audioQueue = a0 :: t0) :
    (playNextAudio { s with logs := L, audioQueue := s.audioQueue.tail,
                            currentAudio := none, isPlaying := false }).audioQueue.length + 1 =
        s.audioQueue.length ∧
    (playNextAudio { s with logs := L, audioQueue := s.audioQueue.tail,
                            currentAudio := none, isPlaying := false }).audioQueue =
        s.audioQueue.tail ∧
    (s.audioQueue.tail = [] →
      (playNextAudio { s with logs := L, audioQueue := s.audioQueue.tail,
                              currentAudio := none, isPlaying := false }).currentAudio = none ∧
      (playNextAudio { s with logs := L, audioQueue := s.audioQueue.tail,
                              currentAudio := none, isPlaying := false }).isPlaying = false) ∧
    (∀ a t, s.audioQueue.tail = a :: t →
      (playNextAudio { s with logs := L, audioQueue := s.audioQueue.tail,
                              currentAudio := none, isPlaying := false }).currentAudio = some a ∧
      (playNextAudio { s with logs := L, audioQueue := s.audioQueue.tail,
                              currentAudio := none, isPlaying := false }).srcHistory =
        s.srcHistory ++ [a]) := by
  cases t0 with
  | nil =>
      rw [playNextAudio_nil _ (by simp [hq])]
      refine ⟨by simp [hq], rfl, fun _ => ⟨rfl, rfl⟩, ?_⟩
      intro a t hcontr
      rw [hq] at hcontr
      simp at hcontr
  | cons b t' =>
      rw [playNextAudio_cons _ b t' (by simp [hq]) (by simp)]
      refine ⟨by simp [hq], by simp [hq], ?_, ?_⟩
      · intro hcontr
        rw [hq] at hcontr
        simp at hcontr
      · intro a t hat
        rw [hq] at hat
        simp only [List.tail_cons] at hat
        rw [List.cons.injEq] at hat
        exact ⟨by rw [hat.1], by rw [hat.1]⟩

/- ### Claim theorems -/

/-- Claim C1: over every sequence of enqueue operations (tts or llm paths)
interleaved with completion and error events, the segments that began playback
(in `srcHistory` order) followed by the waiting remainder of the queue are
exactly the arrived segments in arrival order — playback starts in exact FIFO
arrival order; the currently playing segment is always the head of the queue;
and the playback target is unique at any instant. -/
theorem audio_fifo_single_playback (protocol hostname : String) (evs : List PlayerEvent) :
    ((runPlayer protocol hostname evs).srcHistory ++
        (runPlayer protocol hostname evs).audioQueue.tail =
      (runPlayer protocol hostname evs).arrivalHistory) ∧
    (∀ a, (runPlayer protocol hostname evs).currentAudio = some a →
      (runPlayer protocol hostname evs).audioQueue.head? = some a) ∧
    (∀ a b, (runPlayer protocol hostname evs).currentAudio = some a →
      (runPlayer protocol hostname evs).currentAudio = some b → a = b) := by
  obtain ⟨h1, h2, h3⟩ := playerInv_runPlayer protocol hostname evs
  refine ⟨h3, ?_, ?_⟩
  · intro a hc
    cases hp : (runPlayer protocol hostname evs).isPlaying with
    | true =>
        obtain ⟨a', hc', hh⟩ := h2 hp
        rw [hc] at hc'
        rw [Option.some.inj hc']
        exact hh
    | false =>
        obtain ⟨hc0, _⟩ := h1 hp
        rw [hc0] at hc
        cases hc
  · intro a b ha hb
    rw [ha] at hb
    exact Option.some.inj hb

/-- Witness for C1: after one `tts_sentence_complete` enqueue from idle, the
currently playing segment is the queue head, and start order matches arrival
order. -/
theorem audio_fifo_single_playback_witness :
    (runPlayer "http:" "localhost"
        [PlayerEvent.ttsSentenceComplete (some "/a.wav") "hi"]).audioQueue.head? =
      some ⟨"http://localhost:8000/a.wav", "hi"⟩ :=
  (audio_fifo_single_playback "http:" "localhost"
      [PlayerEvent.ttsSentenceComplete (some "/a.wav") "hi"]).2.1
    ⟨"http://localhost:8000/a.wav", "hi"⟩ (by decide)

/-- Claim C2 counterexample: in the reachable state just after a successful
open the heartbeat is running, and a transport error leaves it running —
`handleConnectionError` does not stop the heartbeat, so a transport error is
not routed through the full abnormal-close failure path the claim describes. -/
theorem error_keeps_heartbeat_cex :
    (handleConnectionError "connection refused" (runConn [ConnEvent.opened])).heartbeatActive =
      true := by
  rfl

/-- Claim C2 amended: every transport error is logged, sets the connection
status to the failed/disconnected value, and schedules a reconnect (advancing
the attempt counter) exactly when the counter is below the fixed maximum of 3;
but unlike an abnormal close it leaves the heartbeat untouched —
`handleConnectionError` never stops the heartbeat. -/
theorem error_failure_path (msg : String) (s : ConnState) :
    (handleConnectionError msg s).heartbeatActive = s.heartbeatActive ∧
    (handleConnectionError msg s).connectionStatusText = "连接失败" ∧
    (handleConnectionError msg s).connectionStatusClass = "disconnected" ∧
    (handleConnectionError msg s).scheduledReconnects =
      s.scheduledReconnects ++
        (if s.reconnectCount < maxReconnectAttempts
         then [reconnectDelay * (s.reconnectCount + 1)] else []) ∧
    (handleConnectionError msg s).reconnectCount =
      (if s.reconnectCount < maxReconnectAttempts
       then s.reconnectCount + 1 else s.reconnectCount) := by
  by_cases hlt : s.reconnectCount < maxReconnectAttempts
  · simp [handleConnectionError, hlt]
  · simp [handleConnectionError, hlt]

/-- Claim C3: in every reachable connection state at most 3 reconnect attempts
have been scheduled since the last successful open, the attempt counter never
exceeds 3, and the i-th scheduled attempt (counting from 1) was scheduled with
delay `reconnectDelay * i` — linear backoff, 1000 ms times the attempt number,
with no jitter and no cap other than the attempt bound. -/
theorem reconnect_bounded_linear (evs : List ConnEvent) :
    (runConn evs).scheduledReconnects.length ≤ maxReconnectAttempts ∧
    (runConn evs).reconnectCount ≤ maxReconnectAttempts ∧
    (runConn evs).scheduledReconnects =
      (List.range (runConn evs).scheduledReconnects.length).map
        (fun i => reconnectDelay * (i + 1)) := by
  obtain ⟨h1, h2⟩ := connInv_runConn evs
  refine ⟨?_, h1, ?_⟩
  · rw [h2]
    simpa using h1
  · rw [h2]
    simp

/-- Claim C4: a close event carrying the normal code 1000 schedules no
reconnect and leaves the attempt counter unchanged, whatever the counter's
value; in particular the normal-code close performed by `disconnectWebSocket`
never leads to a scheduled reconnect. -/
theorem normal_close_no_reconnect (reason : String) (s : ConnState) :
    (handleDisconnect 1000 reason s).scheduledReconnects = s.scheduledReconnects ∧
    (handleDisconnect 1000 reason s).reconnectCount = s.reconnectCount ∧
    (connStep disconnectWebSocket s).scheduledReconnects = s.scheduledReconnects := by
  refine ⟨?_, ?_, ?_⟩ <;> simp [connStep, disconnectWebSocket, handleDisconnect]

/-- Claim C5: `updateParams` sends the `set_params` frame exactly when the
socket is open and the selected model and the history id are both non-empty;
in every other combination of the three conditions it sends nothing; in every
case exactly one diagnostic log line is produced. -/
theorem set_params_iff_preconditions (socketOpen : Bool) (model historyId : String) :
    (updateParams socketOpen model historyId).framesSent =
      (if socketOpen && (model != "") && (historyId != "")
       then [OutFrame.setParams model historyId] else []) ∧
    (updateParams socketOpen model historyId).logsAdded.length = 1 := by
  cases socketOpen <;> by_cases hm : model = "" <;> by_cases hh : historyId = "" <;>
    simp [updateParams, hm, hh]

/-- Claim C6: from any invariant-satisfying playback state with a segment
currently playing, completion (`onAudioEnded`) or error (`onAudioError`)
shrinks the queue by exactly one — the resulting queue is exactly the old
queue's tail, so no other queue mutation happens — clears the playing marker
when the remainder is empty, and otherwise immediately starts the new head
within the same handler. -/
theorem segment_completion_advances (s : PlayerState) (hinv : playerInv s)
    (hp : s.isPlaying = true) :
    ((onAudioEnded s).audioQueue.length + 1 = s.audioQueue.length ∧
     (onAudioEnded s).audioQueue = s.audioQueue.tail ∧
     (s.audioQueue.tail = [] → (onAudioEnded s).currentAudio = none ∧
        (onAudioEnded s).isPlaying = false) ∧
     (∀ a t, s.audioQueue.tail = a :: t → (onAudioEnded s).currentAudio = some a ∧
        (onAudioEnded s).srcHistory = s.srcHistory ++ [a])) ∧
    (∀ msg,
     (onAudioError msg s).audioQueue.length + 1 = s.audioQueue.length ∧
     (onAudioError msg s).audioQueue = s.audioQueue.tail ∧
     (s.audioQueue.tail = [] → (onAudioError msg s).currentAudio = none ∧
        (onAudioError msg s).isPlaying = false) ∧
     (∀ a t, s.audioQueue.tail = a :: t → (onAudioError msg s).currentAudio = some a ∧
        (onAudioError msg s).srcHistory = s.srcHistory ++ [a])) := by
  obtain ⟨a0, t0, hc0, hq0⟩ := queue_shape_of_playing s hinv hp
  refine ⟨advance_shape s _ a0 t0 hq0, fun msg => advance_shape s _ a0 t0 hq0⟩

/-- Witness for C6: with two queued segments and the first playing, its
completion removes exactly it and starts the second. -/
theorem segment_completion_advances_witness :
    (onAudioEnded (runPlayer "http:" "localhost"
        [PlayerEvent.ttsSentenceComplete (some "/a.wav") "one",
         PlayerEvent.ttsSentenceComplete (some "/b.wav") "two"])).currentAudio =
      some ⟨"http://localhost:8000/b.wav", "two"⟩ :=
  ((segment_completion_advances
      (runPlayer "http:" "localhost"
        [PlayerEvent.ttsSentenceComplete (some "/a.wav") "one",
         PlayerEvent.ttsSentenceComplete (some "/b.wav") "two"])
      (playerInv_runPlayer "http:" "localhost"
        [PlayerEvent.ttsSentenceComplete (some "/a.wav") "one",
         PlayerEvent.ttsSentenceComplete (some "/b.wav") "two"])
      rfl).1.2.2.2
    ⟨"http://localhost:8000/b.wav", "two"⟩ [] (by decide)).1

/-- Claim C7 (code bug): because the streaming class is never rendered, the
`querySelector` guard of `handleLLMStreamChunk` is always null and every chunk
creates a new empty assistant entry, while `appendToLastMessage` always
appends to the first such entry.  Evaluating the code at the claim's scenario
— chunks "He" then "llo" on the empty conversation — yields two new assistant
entries, the first with text "Hello" and a spurious empty second one, not the
exactly one entry the claim (and the spec's dispatch table) describes. -/
theorem stream_chunks_entry_per_chunk :
    handleLLMStreamChunk "llo" (handleLLMStreamChunk "He" []) =
      [(⟨"Hello", "assistant", "assistant-response-building"⟩ : ConvEntry),
       (⟨"", "assistant", "assistant-response-building"⟩ : ConvEntry)] := by
  decide

/-- Claim C8: in every reachable playback state `isPlaying` is true exactly
when `currentAudio` is non-null, and every playback operation preserves this
equivalence from any state satisfying it, so the `!isPlaying` guard of the
tts path and the `!currentAudio` guard of the llm path test the same
condition. -/
theorem isPlaying_iff_currentAudio (protocol hostname : String) :
    (∀ evs, ((runPlayer protocol hostname evs).isPlaying = true ↔
       (runPlayer protocol hostname evs).currentAudio ≠ none)) ∧
    (∀ e s, (s.isPlaying = true ↔ s.currentAudio ≠ none) →
       ((playerStep protocol hostname e s).isPlaying = true ↔
        (playerStep protocol hostname e s).currentAudio ≠ none)) := by
  constructor
  · intro evs
    exact playerInv_implies_agree _ (playerInv_runPlayer protocol hostname evs)
  · intro e s h
    exact agree_playerStep protocol hostname e s h

/-- Witness for C8: the equivalence, holding in the initial state, is carried
through a concrete step. -/
theorem isPlaying_iff_currentAudio_witness :
    ((playerStep "http:" "localhost" PlayerEvent.audioEnded initialPlayerState).isPlaying = true ↔
     (playerStep "http:" "localhost" PlayerEvent.audioEnded initialPlayerState).currentAudio ≠
       none) :=
  (isPlaying_iff_currentAudio "http:" "localhost").2 PlayerEvent.audioEnded initialPlayerState
    (by decide)

/-- Claim C9: a `tts_sentence_complete` message whose `audio_url` is absent or
empty is dropped entirely — the playback state (queue, playing marker, logs
and histories) is exactly unchanged. -/
theorem tts_without_url_dropped (protocol hostname text : String) (s : PlayerState) :
    handleTTSSentenceComplete protocol hostname none text s = s ∧
    handleTTSSentenceComplete protocol hostname (some "") text s = s := by
  constructor
  · rfl
  · simp [handleTTSSentenceComplete]

/-- Claim C10: every close event — any code, including the normal closure code
1000 — stops the heartbeat and clears both `isVoiceChatting` and `isSpeaking`:
an active voice-chat session never survives a socket close. -/
theorem close_stops_session (code : Nat) (reason : String) (s : ConnState) :
    (handleDisconnect code reason s).heartbeatActive = false ∧
    (handleDisconnect code reason s).isVoiceChatting = false ∧
    (handleDisconnect code reason s).isSpeaking = false := by
  by_cases hc : code ≠ 1000 ∧ s.reconnectCount < maxReconnectAttempts
  · simp [handleDisconnect, hc]
  · simp [handleDisconnect, hc]
